import Mathlib

/-!
Shallow embedding of the povg marshalling layer (a Python wrapper over the
OpenVG 1.1 C API) and proofs about it.

Sources embedded here:
  * `povg/__init__.py` — `flatten`, `unflatten`, the exception taxonomy and
    the `error_codes` table;
  * `povg/path.py` — `PathSegments`, `SegmentCommand`, `Path._append_data`,
    `Path._add_segment`, `Path.queue_segments`, `Path.close_path`,
    `Path.arc_to`, `Path.__del__`;
  * `povg/params.py` — `native_getter`, `native_setter`, `BitMask.__int__`,
    `BitMask._from_int`;
  * `povg/native.py` — `error_check`, `INVALID_HANDLE`;
  * `povg/vgu/native.py` and `povg/vgu/__init__.py` — `vgu_error_check`,
    `vgu_error_codes`;
  * `povg/paint.py` — `current_paint`, `Paint.__del__`.

Python exceptions are modelled with `Except`; machine floats never matter for
the claims below (only the shape and ordering of coordinate payloads do), so
coordinate payloads are carried as integers.
-/

namespace Povg

/-- The Python-level errors that the embedded code can raise.  `nameError`
models a lookup of an unbound name (CPython raises `NameError` at the point
the name is evaluated). -/
inductive PyError : Type
  | nameError
  | typeError
  | valueError
  | zeroDivisionError
deriving DecidableEq, Repr

/-! ## `povg/__init__.py`: flatten / unflatten -/

/-- `flatten(tuples, n=None)` from `povg/__init__.py` (lines 34-65): if `n`
is given and some inner tuple has a different length, raise `ValueError`;
otherwise concatenate the inner tuples in order (`chain.from_iterable`). -/
def flatten {α : Type} (tuples : List (List α)) (n : Option Nat) :
    Except PyError (List α) :=
  match n with
  | some m =>
      if tuples.all (fun t => t.length == m) then .ok tuples.flatten
      else .error .valueError
  | none => .ok tuples.flatten

/-- `unflatten(seq, n, strict=True)` from `povg/__init__.py` (lines 68-105):
`count, extra = divmod(len(seq), n)` (a `ZeroDivisionError` when `n == 0`);
in strict mode a nonzero remainder raises `ValueError`; the result is the
tuple of slices `seq[n*tnum : n*(tnum+1)]` for `tnum in range(count)`, plus
`seq[-extra:]` as a short trailing tuple when not strict and `extra != 0`. -/
def unflatten {α : Type} (seq : List α) (n : Nat) (strict : Bool) :
    Except PyError (List (List α)) :=
  if n == 0 then .error .zeroDivisionError
  else
    let count := seq.length / n
    let extra := seq.length % n
    if strict && extra != 0 then .error .valueError
    else
      let tuples := (List.range count).map
        (fun tnum => (seq.drop (n * tnum)).take n)
      if extra != 0 then .ok (tuples ++ [seq.drop (seq.length - extra)])
      else .ok tuples

/-! ## `povg/path.py`: segment commands and the path state machine -/

namespace PathSegments

/-- `PathSegments.CLOSE_PATH` (`povg/path.py` lines 33-38; the namedtuple is
filled with `*range(13)` in declaration order). -/
def CLOSE_PATH : Nat := 0

/-- `PathSegments.MOVE_TO`. -/
def MOVE_TO : Nat := 1

/-- `PathSegments.LINE_TO`. -/
def LINE_TO : Nat := 2

/-- `PathSegments.HLINE_TO`. -/
def HLINE_TO : Nat := 3

/-- `PathSegments.VLINE_TO`. -/
def VLINE_TO : Nat := 4

/-- `PathSegments.QUAD_TO`. -/
def QUAD_TO : Nat := 5

/-- `PathSegments.CUBIC_TO`. -/
def CUBIC_TO : Nat := 6

/-- `PathSegments.SQUAD_TO`. -/
def SQUAD_TO : Nat := 7

/-- `PathSegments.SCUBIC_TO`. -/
def SCUBIC_TO : Nat := 8

/-- `PathSegments.SCCWARC_TO`. -/
def SCCWARC_TO : Nat := 9

/-- `PathSegments.SCWARC_TO`. -/
def SCWARC_TO : Nat := 10

/-- `PathSegments.LCCWARC_TO`. -/
def LCCWARC_TO : Nat := 11

/-- `PathSegments.LCWARC_TO`. -/
def LCWARC_TO : Nat := 12

end PathSegments

/-- The declaration order of the `PathSegments` namedtuple fields
(`povg/path.py` lines 33-38), i.e. the fixed segment-type enumeration:
close, move, line, hline, vline, quad, cubic, smooth-quad, smooth-cubic,
short-ccw-arc, short-cw-arc, large-ccw-arc, large-cw-arc. -/
def segment_type_order : List Nat :=
  [PathSegments.CLOSE_PATH, PathSegments.MOVE_TO, PathSegments.LINE_TO,
   PathSegments.HLINE_TO, PathSegments.VLINE_TO, PathSegments.QUAD_TO,
   PathSegments.CUBIC_TO, PathSegments.SQUAD_TO, PathSegments.SCUBIC_TO,
   PathSegments.SCCWARC_TO, PathSegments.SCWARC_TO,
   PathSegments.LCCWARC_TO, PathSegments.LCWARC_TO]

/-- `SegmentCommand(segment_type, is_absolute=True)` from `povg/path.py`
(lines 40-56): `2 * segment_type + (0 if is_absolute else 1)`. -/
def SegmentCommand (segment_type : Nat) (is_absolute : Bool) : Nat :=
  2 * segment_type + (if is_absolute then 0 else 1)

/-- The observable state of a `Path` object relevant to segment queuing
(`povg/path.py`): the `_queuing` flag, the two pending buffers
`_queued_commands` / `_queued_data`, and the trace of
`native.vgAppendPathData` calls already issued, each recorded as the
`(commands, data)` pair it carried. -/
structure PathState : Type where
  queuing : Bool
  queued_commands : List Nat
  queued_data : List Int
  append_calls : List (List Nat × List Int)
deriving DecidableEq, Repr

/-- `Path._append_data(commands, data)` (`povg/path.py` lines 187-200):
issue one `vgAppendPathData(self, len(commands), commands, data)` call. -/
def _append_data (s : PathState) (commands : List Nat) (data : List Int) :
    PathState :=
  { s with append_calls := s.append_calls ++ [(commands, data)] }

/-- `Path._add_segment(command, data)` (`povg/path.py` lines 202-221): while
queuing, append the command to `_queued_commands` and extend `_queued_data`
with the payload; otherwise dispatch `_append_data((command,), data)`
immediately. -/
def _add_segment (s : PathState) (command : Nat) (data : List Int) :
    PathState :=
  if s.queuing then
    { s with queued_commands := s.queued_commands ++ [command],
             queued_data := s.queued_data ++ data }
  else
    _append_data s [command] data

/-- One step of the body of a `with path.queue_segments():` block, as seen by
the path object: either a segment-adding call (which reaches
`_add_segment`), or a statement that raises an exception which propagates
out of the block. -/
inductive SegOp : Type
  | add (command : Nat) (data : List Int)
  | raiseExc (e : PyError)
deriving DecidableEq, Repr

/-- Run the statements of a queuing-scope body over the path state.  An
uncaught exception aborts the rest of the body and is reported alongside the
state the body had built up to that point. -/
def runBody (s : PathState) : List SegOp → PathState × Option PyError
  | [] => (s, none)
  | .add c d :: rest => runBody (_add_segment s c d) rest
  | .raiseExc e :: _ => (s, some e)

/-- `Path.queue_segments()` (`povg/path.py` lines 285-302), a
`@contextmanager` generator: set `_queuing = True`, `yield` to the body,
then — only when control returns normally to the generator — dispatch
`_append_data(_queued_commands, _queued_data)`, reset both buffers to `[]`
and set `_queuing = False`.  When the body raises, CPython throws the
exception into the generator at the `yield`; the generator has no
`try/finally`, so the code after `yield` never runs and the exception
propagates with the path state exactly as the body left it. -/
def queue_segments (s : PathState) (body : List SegOp) :
    PathState × Option PyError :=
  let s1 := { s with queuing := true }
  match runBody s1 body with
  | (s2, some e) => (s2, some e)
  | (s2, none) =>
      let s3 := _append_data s2 s2.queued_commands s2.queued_data
      ({ s3 with queued_commands := [], queued_data := [],
                 queuing := false }, none)

/-- `Path.close_path()` (`povg/path.py` lines 306-308):
`_add_segment(SegmentCommand(PathSegments.CLOSE_PATH), ())` — note the
empty coordinate payload and the default `is_absolute=True`. -/
def close_path (s : PathState) : PathState :=
  _add_segment s (SegmentCommand PathSegments.CLOSE_PATH true) []

/-- The `radii` argument of `Path.arc_to`: either a bare number (no
`len()`, so the `try` block raises `TypeError` and the scalar is broadcast)
or a sequence of numbers. -/
inductive PyRadii : Type
  | scalar (r : Int)
  | seq (rs : List Int)
deriving DecidableEq, Repr

/-- `Path.arc_to(radii, rotation, pos, is_short=True, is_clockwise=False,
is_absolute=True)` (`povg/path.py` lines 431-478).  The command is selected
from `(bool(is_short), bool(is_clockwise))`; the radii are normalised
(scalar and one-element sequences broadcast to two elements, any other
length raises `TypeError('expected 1 or 2 radii, got ...')`).  The final
statement then evaluates `chain(radii, (rot,), pos)` — but the name `rot`
is unbound (the parameter is called `rotation`), so every call that passes
radius validation raises `NameError` before `_add_segment` is reached. -/
def arc_to (s : PathState) (radii : PyRadii) (rotation : Int)
    (pos : Int × Int) (is_short : Bool) (is_clockwise : Bool)
    (is_absolute : Bool) : Except PyError PathState :=
  let command : Nat :=
    match is_short, is_clockwise with
    | false, false => PathSegments.LCCWARC_TO
    | false, true => PathSegments.LCWARC_TO
    | true, false => PathSegments.SCCWARC_TO
    | true, true => PathSegments.SCWARC_TO
  let normalised : Except PyError (Int × Int) :=
    match radii with
    | .scalar r => .ok (r, r)
    | .seq [r] => .ok (r, r)
    | .seq [r1, r2] => .ok (r1, r2)
    | .seq _ => .error .typeError
  match normalised with
  | .error e => .error e
  | .ok rs =>
      -- Had line 478 read `rotation` instead of `rot`, the result would be
      -- `_add_segment s (SegmentCommand command is_absolute)
      --    [rs.1, rs.2, rotation, pos.1, pos.2]`.  As written, evaluating
      -- the unbound name raises:
      .error .nameError

/-! ## Theorems for claim C1 -/

/-- C1: for every segment type in the fixed enumeration (close=0, move=1,
line=2, hline=3, vline=4, quad=5, cubic=6, smooth-quad=7, smooth-cubic=8,
short-ccw-arc=9, short-cw-arc=10, large-ccw-arc=11, large-cw-arc=12) and
every boolean `is_absolute`, the encoded opcode equals
`2 * segment_type_index + (0 if absolute else 1)`; in particular the move-to
opcode is 2 when absolute and 3 when relative, and the close-path operation
always carries a zero-length coordinate payload (it queues or dispatches
opcode 0 with the empty data sequence, leaving the coordinate buffer
untouched). -/
theorem segment_command_encoding :
    (∀ (i : Fin segment_type_order.length) (is_absolute : Bool),
        SegmentCommand (segment_type_order.get i) is_absolute =
          2 * i.val + (if is_absolute then 0 else 1)) ∧
    SegmentCommand PathSegments.MOVE_TO true = 2 ∧
    SegmentCommand PathSegments.MOVE_TO false = 3 ∧
    (∀ s : PathState, close_path s =
        if s.queuing then
          { s with queued_commands :=
              s.queued_commands ++ [SegmentCommand PathSegments.CLOSE_PATH true] }
        else
          { s with append_calls :=
              s.append_calls ++
                [([SegmentCommand PathSegments.CLOSE_PATH true], [])] }) := by
  refine ⟨by decide, rfl, rfl, ?_⟩
  intro s
  cases h : s.queuing <;>
    simp [close_path, _add_segment, _append_data, h]

/-! ## Lemmas and theorem for claim C4 -/

/-- Splitting a list of length `c * n` into the `c` slices
`seq[n*tnum : n*(tnum+1)]` and concatenating them again restores the
list. -/
theorem flatten_chunks_exact {α : Type} :
    ∀ (c : Nat) (seq : List α) (n : Nat), 0 < n → seq.length = c * n →
    ((List.range c).map (fun tnum => (seq.drop (n * tnum)).take n)).flatten
      = seq := by
  intro c
  induction c with
  | zero =>
    intro seq n _ hlen
    rw [Nat.zero_mul] at hlen
    rw [List.length_eq_zero.mp hlen]
    rfl
  | succ c ih =>
    intro seq n hn hlen
    rw [List.range_succ_eq_map]
    simp only [List.map_cons, List.map_map, List.flatten_cons]
    have hshift :
        ((fun tnum => (seq.drop (n * tnum)).take n) ∘ Nat.succ)
          = fun tnum => (((seq.drop n).drop (n * tnum)).take n) := by
      funext k
      simp only [Function.comp_apply]
      rw [List.drop_drop, Nat.mul_succ, Nat.add_comm (n * k) n]
    rw [hshift]
    have hlen' : (seq.drop n).length = c * n := by
      rw [List.length_drop, hlen, Nat.succ_mul, Nat.add_sub_cancel]
    rw [ih (seq.drop n) n hn hlen', Nat.mul_zero, List.drop_zero,
        List.take_append_drop]

/-- Slicing the concatenation of `count` width-`n` tuples back into `count`
slices of width `n` restores the tuples. -/
theorem chunks_of_flatten {α : Type} (n : Nat) :
    ∀ (tuples : List (List α)), (∀ t ∈ tuples, t.length = n) →
    (List.range tuples.length).map
      (fun tnum => (tuples.flatten.drop (n * tnum)).take n) = tuples := by
  intro tuples
  induction tuples with
  | nil => intro _; rfl
  | cons t ts ih =>
    intro hw
    have ht : t.length = n := hw t (List.mem_cons_self t ts)
    have hw' : ∀ u ∈ ts, u.length = n :=
      fun u hu => hw u (List.mem_cons_of_mem t hu)
    have hd : List.drop n (t ++ ts.flatten) = ts.flatten := by
      rw [← ht]
      exact List.drop_left t ts.flatten
    rw [List.length_cons, List.range_succ_eq_map]
    simp only [List.map_cons, List.map_map, List.flatten_cons]
    congr 1
    · rw [Nat.mul_zero, List.drop_zero, ← ht, List.take_left]
    · have hshift :
          ((fun tnum => (((t ++ ts.flatten).drop (n * tnum)).take n))
              ∘ Nat.succ)
            = fun tnum => ((ts.flatten.drop (n * tnum)).take n) := by
        funext k
        simp only [Function.comp_apply]
        rw [Nat.mul_succ, Nat.add_comm (n * k) n, ← List.drop_drop, hd]
      rw [hshift]
      exact ih hw'


/-- The concatenation of `count` width-`n` tuples has length `count * n`. -/
theorem flatten_length_of_width {α : Type} (n : Nat) :
    ∀ (tuples : List (List α)), (∀ t ∈ tuples, t.length = n) →
    tuples.flatten.length = tuples.length * n := by
  intro tuples
  induction tuples with
  | nil => intro _; simp
  | cons t ts ih =>
    intro hw
    rw [List.flatten_cons, List.length_append,
        hw t (List.mem_cons_self t ts),
        ih (fun u hu => hw u (List.mem_cons_of_mem t hu)),
        List.length_cons, Nat.add_mul, Nat.one_mul]
    exact Nat.add_comm n (ts.length * n)

/-- On a list whose length is the exact multiple `c * n`, strict
`unflatten` succeeds and returns the `c` width-`n` slices. -/
theorem unflatten_exact {α : Type} (seq : List α) (n c : Nat) (hn : 0 < n)
    (hc : seq.length = c * n) :
    unflatten seq n true =
      .ok ((List.range c).map fun tnum => (seq.drop (n * tnum)).take n) := by
  have hne : (n == 0) = false := by
    simp only [beq_eq_false_iff_ne, ne_eq]
    omega
  have hdiv : seq.length / n = c := by
    rw [hc]
    exact Nat.mul_div_cancel c hn
  have hmod : seq.length % n = 0 := by
    rw [hc]
    exact Nat.mul_mod_left c n
  simp [unflatten, hne, hdiv, hmod]

/-- C4: for every integer `n > 0`, every flat sequence whose length is a
multiple of `n` satisfies `flatten(unflatten(flat, n)) == flat`, and every
sequence of tuples each of width exactly `n` satisfies
`unflatten(flatten(tuples, n), n) == tuples`. -/
theorem flatten_unflatten_round_trip {α : Type} (n : Nat) (flat : List α)
    (tuples : List (List α)) (hn : 0 < n) (hdvd : n ∣ flat.length)
    (hw : ∀ t ∈ tuples, t.length = n) :
    (unflatten flat n true).bind (fun ts => flatten ts none) = .ok flat ∧
    (flatten tuples (some n)).bind (fun f => unflatten f n true)
      = .ok tuples := by
  have hbind : ∀ {β γ : Type} (x : β) (f : β → Except PyError γ),
      (Except.ok x).bind f = f x := fun _ _ => rfl
  constructor
  · obtain ⟨c, hc⟩ := hdvd
    have hc' : flat.length = c * n := by rw [hc, Nat.mul_comm]
    rw [unflatten_exact flat n c hn hc', hbind]
    simp only [flatten]
    rw [flatten_chunks_exact c flat n hn hc']
  · have hall : (tuples.all fun t => t.length == n) = true := by
      rw [List.all_eq_true]
      intro t ht
      exact beq_iff_eq.mpr (hw t ht)
    simp only [flatten, hall, if_true]
    rw [hbind,
        unflatten_exact tuples.flatten n tuples.length hn
          (flatten_length_of_width n tuples hw),
        chunks_of_flatten n tuples hw]

/-! ## Lemmas and theorems for claim C2 -/

/-- Running a body made only of segment-adding calls while `_queuing` is set
appends each command and extends the data buffer, in order; no
`vgAppendPathData` call is issued and `_queuing` is untouched. -/
theorem runBody_adds (adds : List (Nat × List Int)) :
    ∀ (s : PathState), s.queuing = true →
    runBody s (adds.map fun p => SegOp.add p.1 p.2) =
      ({ s with
          queued_commands := s.queued_commands ++ adds.map Prod.fst,
          queued_data := s.queued_data ++ (adds.map Prod.snd).flatten },
        none) := by
  induction adds with
  | nil => intro s _; simp [runBody]
  | cons p ps ih =>
    intro s hq
    simp only [List.map_cons, runBody]
    rw [show _add_segment s p.1 p.2 =
          { s with queued_commands := s.queued_commands ++ [p.1],
                   queued_data := s.queued_data ++ p.2 } from by
        simp [_add_segment, hq]]
    rw [ih _ (by simp [hq])]
    simp [List.append_assoc]

/-- Running a body that adds some segments and then raises keeps everything
the adds queued and reports the exception; again no `vgAppendPathData` call
is issued. -/
theorem runBody_adds_raise (adds : List (Nat × List Int)) (e : PyError)
    (rest : List SegOp) :
    ∀ (s : PathState), s.queuing = true →
    runBody s ((adds.map fun p => SegOp.add p.1 p.2)
        ++ SegOp.raiseExc e :: rest) =
      ({ s with
          queued_commands := s.queued_commands ++ adds.map Prod.fst,
          queued_data := s.queued_data ++ (adds.map Prod.snd).flatten },
        some e) := by
  induction adds with
  | nil => intro s _; simp [runBody]
  | cons p ps ih =>
    intro s hq
    simp only [List.map_cons, List.cons_append, runBody, List.append_eq]
    rw [show _add_segment s p.1 p.2 =
          { s with queued_commands := s.queued_commands ++ [p.1],
                   queued_data := s.queued_data ++ p.2 } from by
        simp [_add_segment, hq]]
    rw [ih _ (by simp [hq])]
    simp [List.append_assoc]

/-- The initial state of a freshly created `Path`: not queuing, both pending
buffers empty, no `vgAppendPathData` call issued yet (`povg/path.py` lines
95-97). -/
def freshPath : PathState :=
  { queuing := false, queued_commands := [], queued_data := [],
    append_calls := [] }

/-- C2 counterexample: on a fresh path, enter the queuing scope, add one
`move_to(10, 20)` segment (opcode 2) and then raise `ValueError` from the
scope body.  Contrary to the claim, leaving the scope through the exception
issues no bulk append call at all, leaves both pending buffers non-empty,
and leaves the path in the Queuing state. -/
theorem queue_segments_error_exit_counterexample :
    queue_segments freshPath
        [SegOp.add 2 [10, 20], SegOp.raiseExc PyError.valueError] =
      ({ queuing := true, queued_commands := [2], queued_data := [10, 20],
         append_calls := [] }, some PyError.valueError) ∧
    ¬ ((queue_segments freshPath
          [SegOp.add 2 [10, 20], SegOp.raiseExc PyError.valueError]
        ).1.append_calls.length = 1 ∧
       (queue_segments freshPath
          [SegOp.add 2 [10, 20], SegOp.raiseExc PyError.valueError]
        ).1.queued_commands = [] ∧
       (queue_segments freshPath
          [SegOp.add 2 [10, 20], SegOp.raiseExc PyError.valueError]
        ).1.queuing = false) := by
  decide

/-- C2 (amended): leaving the queuing scope *normally* issues exactly one
bulk append call carrying all pending opcodes and their concatenated payload
data in original insertion order, empties both pending buffers and returns
the path to the Idle state; but when an exception propagates out of the
scope body, no bulk append call is issued, the pending buffers keep the
segments queued before the failure, and the path remains in the Queuing
state. -/
theorem queue_segments_flush_behaviour (s : PathState)
    (adds : List (Nat × List Int)) (e : PyError) (rest : List SegOp) :
    (queue_segments s (adds.map fun p => SegOp.add p.1 p.2) =
      ({ queuing := false, queued_commands := [], queued_data := [],
         append_calls := s.append_calls ++
           [(s.queued_commands ++ adds.map Prod.fst,
             s.queued_data ++ (adds.map Prod.snd).flatten)] }, none)) ∧
    (queue_segments s ((adds.map fun p => SegOp.add p.1 p.2)
        ++ SegOp.raiseExc e :: rest) =
      ({ queuing := true,
         queued_commands := s.queued_commands ++ adds.map Prod.fst,
         queued_data := s.queued_data ++ (adds.map Prod.snd).flatten,
         append_calls := s.append_calls }, some e)) := by
  constructor
  · rw [queue_segments, runBody_adds adds _ rfl]
    rfl
  · rw [queue_segments, runBody_adds_raise adds e rest _ rfl]

/-! ## Theorem for claim C7 -/

/-- C7: every `arc_to` call whose radius argument passes shape validation —
a bare scalar, a one-element sequence or a two-element sequence — raises
`NameError`, because `povg/path.py` line 478 reads the unbound name `rot`
(the parameter is called `rotation`); so neither `arc_to(5, ...)` nor
`arc_to((5, 5), ...)` ever produces an encoded segment.  Only the
shape-error half of the claim holds: a radius sequence of length other than
1 or 2 raises `TypeError` (before the unbound name is reached). -/
theorem arc_to_unbound_name :
    arc_to freshPath (PyRadii.scalar 5) 0 (10, 10) true false true
        = .error .nameError ∧
    arc_to freshPath (PyRadii.seq [5, 5]) 0 (10, 10) true false true
        = .error .nameError ∧
    arc_to freshPath (PyRadii.seq [5]) 0 (10, 10) true false true
        = .error .nameError ∧
    arc_to freshPath (PyRadii.seq [1, 2, 3]) 0 (10, 10) true false true
        = .error .typeError :=
  ⟨rfl, rfl, rfl, rfl⟩

/-- Witness for C4: the round trips hold at `n = 3` with the concrete data
from the module doctests. -/
theorem flatten_unflatten_round_trip_witness :
    0 < 3 ∧ (3 : Nat) ∣ ([1, 4, 7, 2, 5, 8, 3, 6, 9] : List Int).length ∧
    (∀ t ∈ ([[1, 2, 3], [4, 5, 6]] : List (List Int)), t.length = 3) ∧
    ((unflatten ([1, 4, 7, 2, 5, 8, 3, 6, 9] : List Int) 3 true).bind
        (fun ts => flatten ts none) = .ok [1, 4, 7, 2, 5, 8, 3, 6, 9] ∧
      (flatten ([[1, 2, 3], [4, 5, 6]] : List (List Int)) (some 3)).bind
        (fun f => unflatten f 3 true) = .ok [[1, 2, 3], [4, 5, 6]]) :=
  ⟨by decide, by decide, by decide,
    flatten_unflatten_round_trip 3 _ _ (by decide) (by decide) (by decide)⟩

/-! ## `povg/__init__.py`, `povg/native.py`, `povg/vgu`: the two
error-reporting conventions (claim C3) -/

/-- The OpenVG exception classes defined in `povg/__init__.py` (lines
109-162).  `OpenVGError` is the generic base class ("encountered an
unspecified error"); every subclass carries its own overridable default
message. -/
inductive VGErrorClass : Type
  | OpenVGError
  | BadHandleError
  | IllegalArgumentError
  | OutOfMemoryError
  | PathCapabilityError
  | UnsupportedImageFormatError
  | UnsupportedPathFormatError
  | ImageInUseError
  | NoContextError
  | BadWarpError
deriving DecidableEq, Repr

/-- The `error_codes` dict of `povg/__init__.py` (lines 165-170); code 0
maps to `None` ("no error"). -/
def error_codes : List (Nat × Option VGErrorClass) :=
  [(0, none),
   (0x1000, some .BadHandleError), (0x1001, some .IllegalArgumentError),
   (0x1002, some .OutOfMemoryError), (0x1003, some .PathCapabilityError),
   (0x1004, some .UnsupportedImageFormatError),
   (0x1005, some .UnsupportedPathFormatError),
   (0x1006, some .ImageInUseError), (0x1007, some .NoContextError)]

/-- The `vgu_error_codes` dict of `povg/vgu/__init__.py` (lines 26-29). -/
def vgu_error_codes : List (Nat × Option VGErrorClass) :=
  [(0, none),
   (0xF000, some .BadHandleError), (0xF001, some .IllegalArgumentError),
   (0xF002, some .OutOfMemoryError), (0xF003, some .PathCapabilityError),
   (0xF004, some .BadWarpError)]

/-- Python `d.get(key, default)` over one of the code tables. -/
def dict_get (d : List (Nat × Option VGErrorClass)) (key : Nat)
    (default : Option VGErrorClass) : Option VGErrorClass :=
  match d.find? (fun p => p.1 == key) with
  | some p => p.2
  | none => default

/-- The wrapper built by `error_check(fn)` in `povg/native.py` (lines
102-115), the trap-register convention: after the wrapped call returns
`result`, look up `vgGetError()` in `error_codes` with default
`OpenVGError`; raise the looked-up class unless it is `None`, else pass
`result` through.  `trap_code` is the value the `vgGetError()` trap
register reports for this call. -/
def error_check {α : Type} (trap_code : Nat) (result : α) :
    Except VGErrorClass α :=
  match dict_get error_codes trap_code (some .OpenVGError) with
  | some e => .error e
  | none => .ok result

/-- The wrapper built by `vgu_error_check(fn)` in `povg/vgu/native.py`
(lines 38-51), the inline-return convention: the wrapped call's own return
value *is* the error code; look it up in `vgu_error_codes` with default
`OpenVGError`; raise unless `None`, else pass the return value through. -/
def vgu_error_check (result : Nat) : Except VGErrorClass Nat :=
  match dict_get vgu_error_codes result (some .OpenVGError) with
  | some e => .error e
  | none => .ok result

/-- `dict.get` returns the stored value for a key present in a table whose
keys are pairwise distinct (as in both code tables). -/
theorem dict_get_mem (d : List (Nat × Option VGErrorClass)) :
    ∀ (code : Nat) (v default : Option VGErrorClass),
    (code, v) ∈ d → d.Pairwise (fun p q => p.1 ≠ q.1) →
    dict_get d code default = v := by
  induction d with
  | nil =>
    intro code v default hmem _
    exact absurd hmem (List.not_mem_nil _)
  | cons q qs ih =>
    intro code v default hmem hpw
    rcases List.mem_cons.mp hmem with heq | htail
    · cases heq.symm
      have hpos : ((code, v).1 == code) = true := by simp
      have hhead : ((code, v) :: qs).find? (fun p => p.1 == code)
          = some (code, v) :=
        @List.find?_cons_of_pos _ (fun p => p.1 == code) (code, v) qs hpos
      simp [dict_get, hhead]
    · have hne : q.1 ≠ code := by
        simpa using (List.pairwise_cons.mp hpw).1 (code, v) htail
      have hstep : (q :: qs).find? (fun p => p.1 == code)
          = qs.find? (fun p => p.1 == code) :=
        List.find?_cons_of_neg _ (by simp [hne])
      simp only [dict_get, hstep]
      exact ih code v default htail (List.pairwise_cons.mp hpw).2

/-- C3: under both error-reporting conventions, a reported code of 0 raises
nothing and passes the wrapped call's own return value through unchanged; a
nonzero code that is a key of the code table raises the mapped exception
class; and a code absent from the table raises the generic base class
`OpenVGError`. -/
theorem error_check_contract :
    (∀ {α : Type} (r : α), error_check 0 r = .ok r) ∧
    (∀ {α : Type} (code : Nat) (r : α) (e : VGErrorClass), code ≠ 0 →
        (code, some e) ∈ error_codes → error_check code r = .error e) ∧
    (∀ {α : Type} (code : Nat) (r : α), (∀ p ∈ error_codes, p.1 ≠ code) →
        error_check code r = .error .OpenVGError) ∧
    (vgu_error_check 0 = .ok 0) ∧
    (∀ (code : Nat) (e : VGErrorClass), code ≠ 0 →
        (code, some e) ∈ vgu_error_codes → vgu_error_check code = .error e) ∧
    (∀ code : Nat, (∀ p ∈ vgu_error_codes, p.1 ≠ code) →
        vgu_error_check code = .error .OpenVGError) := by
  refine ⟨fun r => rfl, ?_, ?_, rfl, ?_, ?_⟩
  · intro α code r e _ hmem
    have h := dict_get_mem error_codes code (some e) (some .OpenVGError)
      hmem (by decide)
    simp [error_check, h]
  · intro α code r h
    have hfind : error_codes.find? (fun p => p.1 == code) = none :=
      List.find?_eq_none.mpr (fun x hx => by simpa using h x hx)
    simp [error_check, dict_get, hfind]
  · intro code e _ hmem
    have h := dict_get_mem vgu_error_codes code (some e) (some .OpenVGError)
      hmem (by decide)
    simp [vgu_error_check, h]
  · intro code h
    have hfind : vgu_error_codes.find? (fun p => p.1 == code) = none :=
      List.find?_eq_none.mpr (fun x hx => by simpa using h x hx)
    simp [vgu_error_check, dict_get, hfind]

/-- Witness for C3: concrete instances of each clause — code 0 passes 7
through under both conventions, the mapped code `0x1001`/`0xF004` raises
`IllegalArgumentError`/`BadWarpError`, and the unmapped code `0x2345`
raises the base `OpenVGError`. -/
theorem error_check_contract_witness :
    (error_check 0 (7 : Nat) = .ok 7) ∧
    ((0x1001 : Nat) ≠ 0 ∧
      ((0x1001 : Nat), some VGErrorClass.IllegalArgumentError) ∈ error_codes ∧
      error_check 0x1001 (7 : Nat) = .error .IllegalArgumentError) ∧
    ((∀ p ∈ error_codes, p.1 ≠ (0x2345 : Nat)) ∧
      error_check 0x2345 (7 : Nat) = .error .OpenVGError) ∧
    (vgu_error_check 0 = .ok 0) ∧
    ((0xF004 : Nat) ≠ 0 ∧
      ((0xF004 : Nat), some VGErrorClass.BadWarpError) ∈ vgu_error_codes ∧
      vgu_error_check 0xF004 = .error .BadWarpError) ∧
    ((∀ p ∈ vgu_error_codes, p.1 ≠ (0x2345 : Nat)) ∧
      vgu_error_check 0x2345 = .error .OpenVGError) :=
  ⟨error_check_contract.1 7,
   ⟨by decide, by decide,
    error_check_contract.2.1 0x1001 7 _ (by decide) (by decide)⟩,
   ⟨by decide, error_check_contract.2.2.1 0x2345 7 (by decide)⟩,
   error_check_contract.2.2.2.1,
   ⟨by decide, by decide,
    error_check_contract.2.2.2.2.1 0xF004 _ (by decide) (by decide)⟩,
   ⟨by decide, error_check_contract.2.2.2.2.2 0x2345 (by decide)⟩⟩

/-! ## `povg/params.py`: native entry-point selection (claim C5) -/

/-- The kinds of values a parameter descriptor can declare in its
`Details.values` field, as they behave under the tests `native_getter` and
`native_setter` perform: the identity test `values is c_float`, and the
attribute access `values._type_`.  ctypes simple types (`c_float`,
`c_int`, ...) carry `_type_` as their one-character typecode *string* (the
code letter i for `c_int`, f for `c_float`); ctypes array and pointer
types carry `_type_` as their element *class*; plain Python classes —
`bool` and the enum namedtuples — have no `_type_` and raise
`AttributeError`. -/
inductive CValuesKind : Type
  | c_float
  | c_int
  | pyBool
  | pyEnumClass
  | ctypesArray (elem : CValuesKind) (size : Nat)
  | ctypesPointer (elem : CValuesKind)
deriving DecidableEq, Repr

/-- The possible results of evaluating `values._type_` when the attribute
exists: the typecode string of a ctypes simple type, or the element class
of a ctypes array/pointer type. -/
inductive TypeAttr : Type
  | typecode (s : String)
  | elemClass (k : CValuesKind)
deriving DecidableEq, Repr

/-- The `values._type_` lookup of `povg/params.py` lines 63-65 and 86-88:
`none` models the `AttributeError` path (the `except ... pass` branch). -/
def get_type_attr : CValuesKind → Option TypeAttr
  | .c_float => some (.typecode "f")
  | .c_int => some (.typecode "i")
  | .pyBool => none
  | .pyEnumClass => none
  | .ctypesArray elem _ => some (.elemClass elem)
  | .ctypesPointer elem => some (.elemClass elem)

/-- The `array_type is c_float` identity test (`povg/params.py` lines 69
and 92): true only when `_type_` evaluated to the class `c_float` itself; a
typecode string is never that class. -/
def type_attr_is_c_float : TypeAttr → Bool
  | .elemClass .c_float => true
  | _ => false

/-- The native get/set entry points imported at the top of
`povg/params.py` (lines 25-27). -/
inductive NativeFn : Type
  | vgGetParameterf
  | vgGetParameteri
  | vgGetParameterfv
  | vgGetParameteriv
  | vgSetParameterf
  | vgSetParameteri
  | vgSetParameterfv
  | vgSetParameteriv
deriving DecidableEq, Repr

/-- `native_getter(details)` (`povg/params.py` lines 51-72): scalar float →
`vgGetParameterf`; if `details.values._type_` exists, return
`vgGetParameterfv` when it is the class `c_float`, otherwise return the
name `vgGetParatemeriv` — a misspelling of the imported `vgGetParameteriv`,
so looking it up raises `NameError` (this branch is reached by int arrays
and pointers *and* by the scalar ctypes type `c_int`, whose `_type_` is a
typecode string); only kinds without `_type_` fall through to
`vgGetParameteri`. -/
def native_getter (values : CValuesKind) : Except PyError NativeFn :=
  if values = .c_float then .ok .vgGetParameterf
  else
    match get_type_attr values with
    | some attr =>
        if type_attr_is_c_float attr then .ok .vgGetParameterfv
        else .error .nameError
    | none => .ok .vgGetParameteri

/-- `native_setter(details)` (`povg/params.py` lines 74-95): the mirror
image of `native_getter`, with the same misspelling `vgSetParatemeriv` in
the branch for non-`c_float` `_type_` values. -/
def native_setter (values : CValuesKind) : Except PyError NativeFn :=
  if values = .c_float then .ok .vgSetParameterf
  else
    match get_type_attr values with
    | some attr =>
        if type_attr_is_c_float attr then .ok .vgSetParameterfv
        else .error .nameError
    | none => .ok .vgSetParameteri

/-- C5 (evaluation at the failing inputs, and at the working kinds): the
entry point is selected from the declared value-kind alone, and scalar
float kinds use the scalar-float entry points, float-array (and
float-pointer) kinds the float-vector entry points, and booleans and enums
the scalar-int entry points — but an int-array kind does *not* get the
int-vector entry points, and a descriptor declared as the scalar ctypes
type `c_int` does *not* get the scalar-int entry points either: in both
cases `values._type_` exists and is not the class `c_float` (for `c_int`
it is the typecode string), so `native_getter` and `native_setter` reach
the misspelled names `vgGetParatemeriv`/`vgSetParatemeriv` and raise
`NameError`.  Only kinds without a `_type_` attribute reach
`vgGetParameteri`/`vgSetParameteri`. -/
theorem native_accessor_selection :
    native_getter .c_float = .ok .vgGetParameterf ∧
    native_getter (.ctypesArray .c_float 4) = .ok .vgGetParameterfv ∧
    native_getter (.ctypesPointer .c_float) = .ok .vgGetParameterfv ∧
    native_getter .pyBool = .ok .vgGetParameteri ∧
    native_getter .pyEnumClass = .ok .vgGetParameteri ∧
    native_getter .c_int = .error .nameError ∧
    native_getter (.ctypesArray .c_int 4) = .error .nameError ∧
    native_getter (.ctypesPointer .c_int) = .error .nameError ∧
    native_setter .c_float = .ok .vgSetParameterf ∧
    native_setter (.ctypesArray .c_float 4) = .ok .vgSetParameterfv ∧
    native_setter .pyBool = .ok .vgSetParameteri ∧
    native_setter .c_int = .error .nameError ∧
    native_setter (.ctypesArray .c_int 4) = .error .nameError :=
  ⟨rfl, rfl, rfl, rfl, rfl, rfl, rfl, rfl, rfl, rfl, rfl, rfl, rfl⟩

/-! ## `povg/params.py`: the BitMask codec (claim C6) -/

/-- The `while` loop of `BitMask._from_int` (`povg/params.py` lines
235-249): starting at position 0, repeatedly `mask, bit = divmod(mask, 2);
bits[pos] = bool(bit)` until the mask is exhausted or the bit list runs
out; positions beyond the loop keep their previous value. -/
def _from_int_loop : Nat → List Bool → List Bool
  | 0, bits => bits
  | _ + 1, [] => []
  | m + 1, _ :: rest => (((m + 1) % 2) == 1) :: _from_int_loop ((m + 1) / 2) rest

/-- `BitMask._from_int(mask)` applied to the freshly initialised bit list
`[False] * len(bit_names)` of `BitMask.__init__` (`povg/params.py` line
189), i.e. the effect of constructing a `BitMask` from one positional
integer mask. -/
def _from_int (bits : List Bool) (mask : Nat) : List Bool :=
  _from_int_loop mask bits

/-- The generator inside `BitMask.__int__` (`povg/params.py` lines
227-229), carrying the running `enumerate` index: `2 ** i if bit else 0`
summed over the bits from index `i` on. -/
def int_of_bits_from (i : Nat) : List Bool → Nat
  | [] => 0
  | b :: rest => (if b then 2 ^ i else 0) + int_of_bits_from (i + 1) rest

/-- `BitMask.__int__` / `to_int`: the sum of `2 ** i` over set bit
positions. -/
def to_int (bits : List Bool) : Nat := int_of_bits_from 0 bits

/-- Starting the `__int__` sum one position later doubles every term. -/
theorem int_of_bits_from_succ (l : List Bool) :
    ∀ i, int_of_bits_from (i + 1) l = 2 * int_of_bits_from i l := by
  induction l with
  | nil => intro i; rfl
  | cons b rest ih =>
    intro i
    simp only [int_of_bits_from, ih (i + 1)]
    cases b <;> simp [pow_succ] <;> ring

/-- `to_int` on a cons cell. -/
theorem to_int_cons (b : Bool) (l : List Bool) :
    to_int (b :: l) = (if b then 1 else 0) + 2 * to_int l := by
  simp [to_int, int_of_bits_from, int_of_bits_from_succ l 0]

/-- An all-false bit list converts to 0 from any starting index. -/
theorem int_of_bits_from_replicate_false :
    ∀ (w i : Nat), int_of_bits_from i (List.replicate w false) = 0 := by
  intro w
  induction w with
  | zero => intro i; rfl
  | succ w ih =>
    intro i
    rw [List.replicate_succ]
    simp [int_of_bits_from, ih (i + 1)]

/-- C6: for every `m` below `2 ^ width` (the width being the length of the
`bit_names` list), constructing a `BitMask` from the integer `m` — that is,
running `_from_int` over the `[False] * width` bit list — and converting
back with `__int__` yields exactly `m`. -/
theorem bitmask_int_round_trip :
    ∀ (width m : Nat), m < 2 ^ width →
    to_int (_from_int (List.replicate width false) m) = m := by
  intro width
  induction width with
  | zero =>
    intro m hm
    have h0 : m = 0 := Nat.lt_one_iff.mp (by simpa using hm)
    subst h0
    rfl
  | succ w ih =>
    intro m hm
    rw [List.replicate_succ]
    cases m with
    | zero =>
      show to_int (false :: List.replicate w false) = 0
      rw [to_int_cons]
      simp [to_int, int_of_bits_from_replicate_false w 0]
    | succ k =>
      show to_int ((((k + 1) % 2) == 1 : Bool) ::
          _from_int_loop ((k + 1) / 2) (List.replicate w false)) = k + 1
      have hdiv : (k + 1) / 2 < 2 ^ w := by
        rw [Nat.pow_succ] at hm
        exact (Nat.div_lt_iff_lt_mul (by norm_num)).mpr hm
      rw [to_int_cons]
      have := ih ((k + 1) / 2) hdiv
      rw [show _from_int_loop ((k + 1) / 2) (List.replicate w false)
            = _from_int (List.replicate w false) ((k + 1) / 2) from rfl, this]
      rcases Nat.mod_two_eq_zero_or_one (k + 1) with h | h <;> simp [h] <;>
        omega

/-- Witness for C6: the round trip at width 5 and `m = 13`. -/
theorem bitmask_int_round_trip_witness :
    13 < 2 ^ 5 ∧ to_int (_from_int (List.replicate 5 false) 13) = 13 :=
  ⟨by decide, bitmask_int_round_trip 5 13 (by decide)⟩

/-! ## `povg/params.py`: BitMask instance equality (claim C8) -/

/-- A `BitMask` instance as a CPython object: its object identity, its
`bits` list, and the `bit_names` registry of its class (`None` entries for
unnamed bits). -/
structure BitMaskObj : Type where
  objId : Nat
  bits : List Bool
  bit_names : List (Option String)
deriving DecidableEq, Repr

/-- The `==` comparison between two `BitMask` instances.  The class defines
no `__eq__` (`povg/params.py` lines 98-249 contain none), so CPython falls
back to `object.__eq__`, which is object identity. -/
def bitmask_eq (a b : BitMaskObj) : Bool :=
  a.objId == b.objId

/-- C8 counterexample: two distinct `PathCapabilities`-style instances with
identical bits — hence identical `to_int()` values — and the same bit-name
registry compare unequal, because `BitMask` inherits identity-based
equality from `object`. -/
theorem bitmask_eq_counterexample :
    to_int (BitMaskObj.mk 0 [true, false]
        [some "APPEND_FROM", some "APPEND_TO"]).bits =
      to_int (BitMaskObj.mk 1 [true, false]
        [some "APPEND_FROM", some "APPEND_TO"]).bits ∧
    bitmask_eq
        (BitMaskObj.mk 0 [true, false]
          [some "APPEND_FROM", some "APPEND_TO"])
        (BitMaskObj.mk 1 [true, false]
          [some "APPEND_FROM", some "APPEND_TO"]) = false :=
  ⟨rfl, rfl⟩

/-- C8 (amended): two `BitMask` instances compare equal iff they are the
same object — neither the bits (and hence the `to_int()` value) nor the
bit-name registry takes part in the comparison — and equality of `to_int()`
values does not make two distinct instances equal. -/
theorem bitmask_eq_identity :
    (∀ a b : BitMaskObj, bitmask_eq a b = true ↔ a.objId = b.objId) ∧
    (∃ a b : BitMaskObj, to_int a.bits = to_int b.bits ∧
      a.bit_names = b.bit_names ∧ bitmask_eq a b = false) := by
  refine ⟨fun a b => by simp [bitmask_eq], ?_⟩
  exact ⟨⟨0, [true], []⟩, ⟨1, [true], []⟩, rfl, rfl, rfl⟩

/-! ## `povg/path.py` / `povg/paint.py`: wrapper teardown (claim C9) -/

/-- The native destroy calls a wrapper's `__del__` can issue. -/
inductive NativeCall : Type
  | vgDestroyPath (handle : Nat)
  | vgDestroyPaint (handle : Nat)
deriving DecidableEq, Repr

/-- `Path.__del__` (`povg/path.py` lines 112-114): calls
`native.vgDestroyPath(self)` on the wrapper's handle. -/
def Path_del (phandle : Nat) : List NativeCall :=
  [.vgDestroyPath phandle]

/-- `Paint.__del__` (`povg/paint.py` lines 119-125): the
`native.vgDestroyPaint(self)` call is commented out (the FIXME notes that
aliasing wrappers, e.g. from `current_paint()`, would double-destroy and
segfault); the body is `pass`, issuing no native call. -/
def Paint_del (pthandle : Nat) : List NativeCall :=
  []

/-- How many times a given paint handle is destroyed in a trace of native
calls. -/
def count_destroy_paint (h : Nat) (calls : List NativeCall) : Nat :=
  calls.countP (fun c => c == .vgDestroyPaint h)

/-- Tearing down a collection of Paint wrappers (owning or borrowed, listed
by handle) runs each wrapper's `__del__` in turn. -/
def teardown_paints (handles : List Nat) : List NativeCall :=
  (handles.map Paint_del).flatten

/-- C9 counterexample: an owning Paint wrapper — one constructed without an
existing handle, holding the fresh handle 7 from `vgCreatePaint` — releases
its native handle zero times on teardown, not the exactly-once the claim
requires. -/
theorem paint_del_counterexample :
    ¬ count_destroy_paint 7 (Paint_del 7) = 1 ∧
    count_destroy_paint 7 (Paint_del 7) = 0 :=
  ⟨by decide, rfl⟩

/-- C9 (amended): a `Path` wrapper issues exactly one destroy call for its
own handle on teardown, while a `Paint` wrapper — owning or borrowed —
issues none (the destroy call is deliberately disabled as a double-free
workaround); consequently any number of Paint wrappers aliasing one native
paint object produce zero destroy calls between them, so they can never
double-release it. -/
theorem wrapper_teardown_release :
    (∀ h : Nat, Path_del h = [NativeCall.vgDestroyPath h]) ∧
    (∀ h : Nat, count_destroy_paint h (Paint_del h) = 0) ∧
    (∀ (handles : List Nat) (h : Nat),
        count_destroy_paint h (teardown_paints handles) = 0) := by
  refine ⟨fun _ => rfl, fun _ => rfl, ?_⟩
  intro handles h
  induction handles with
  | nil => rfl
  | cons x xs ih => simpa [teardown_paints, Paint_del] using ih

/-! ## `povg/paint.py`: querying the current paint (claim C10) -/

/-- The Python values met by the `current == native.INVALID_HANDLE` test:
plain ints (what a ctypes foreign call with a simple `restype` such as
`c_handle = c_uint` returns), and ctypes simple-data instances such as
`c_uint(0)`, identified by the object they are. -/
inductive PyVal : Type
  | pyInt (n : Nat)
  | ctypesUint (objId : Nat) (value : Nat)
deriving DecidableEq, Repr

/-- `INVALID_HANDLE = c_handle(0)` (`povg/native.py` lines 74 and 79):
`c_handle` is `c_uint`, so this is a ctypes *instance* wrapping 0,
allocated once at import time. -/
def INVALID_HANDLE : PyVal := .ctypesUint 0 0

/-- Python `==` over these values: `int == int` compares the numbers;
ctypes simple-data classes define no rich comparison, so a comparison
involving a ctypes instance falls back to `object.__eq__`, i.e. object
identity — in particular an int never equals a ctypes instance. -/
def py_eq : PyVal → PyVal → Bool
  | .pyInt a, .pyInt b => a == b
  | .ctypesUint i _, .ctypesUint j _ => i == j
  | _, _ => false

/-- A `Paint` wrapper as built by `Paint(pthandle=...)`. -/
structure PaintObj : Type where
  pthandle : Nat
deriving DecidableEq, Repr

/-- `current_paint()` (`povg/paint.py` lines 69-89) as a function of the
handle returned by `native.vgGetPaint(mode)` (a Python int, since ctypes
converts the `c_handle` restype): `None if current == native.INVALID_HANDLE
else Paint(pthandle=current)`. -/
def current_paint (vgGetPaint_result : Nat) : Option PaintObj :=
  if py_eq (.pyInt vgGetPaint_result) INVALID_HANDLE then none
  else some ⟨vgGetPaint_result⟩

/-- C10 (evaluation at the failing input): when `vgGetPaint` reports the
invalid handle 0, `current_paint` does *not* return `None` — the test
`current == INVALID_HANDLE` compares the int 0 with the ctypes instance
`c_uint(0)`, which is always false, so a `Paint` wrapper around handle 0 is
returned; indeed every handle value yields a wrapper. -/
theorem current_paint_zero_handle :
    current_paint 0 = some ⟨0⟩ ∧ current_paint 0 ≠ none ∧
    (∀ h : Nat, current_paint h = some ⟨h⟩) :=
  ⟨rfl, by decide, fun _ => rfl⟩

end Povg
